import Mathlib

/-!
Verification of the news aggregation-and-caching pipeline
(app/services/news_service.py together with app/scrapers/*).

Shallow embedding conventions:
* Timestamps (datetime values) are modelled as natural numbers; the code only
  ever compares them with a total order and passes them through.
* A Python coroutine that may raise is modelled as a function into
  `Except Unit`; the exception payload is irrelevant to control flow.
* The two module-level TTL caches (news_service.py lines 18 and 22) are
  modelled as association lists; an entry present in the list models a live
  (non-expired) entry, and `cachePut` prepends, which gives the same
  lookup-observable semantics as `TTLCache.__setitem__` (most recent write
  wins).  TTL expiry and size eviction only remove entries and are not
  modelled; every claim that hypothesises cache state speaks of live entries.
* The HTTP routes (app/api/routes.py) validate `page > 0` and `limit > 0`
  before the service is reached, so `page` and `limit` are `Nat` and the
  Python expression `(page - 1) * limit` matches truncated subtraction.
-/

namespace NewsStation

/-- Canonical article value (app/models/news.py, `NewsArticle`).  The fields the
aggregation pipeline reads (`id`, `url`, `published_at`) are modelled exactly;
`title`, `summary`, `content` and `category` are carried as data.  The purely
presentational fields (`author`, `source`, `tags`, `image_url`, the three
counters, `updated_at`) are never consulted by the service code under proof and
are omitted. -/
structure Article where
  id : String
  title : String
  url : String
  summary : Option String
  content : Option String
  published_at : Nat
  category : String
deriving DecidableEq

/-- app/models/news.py, `NewsFeed`: the value cached and returned by
`get_news_feed`. -/
structure NewsFeed where
  articles : List Article
  category : String
  page : Nat
  limit : Nat
  total : Nat
  last_updated : Nat
deriving DecidableEq

/-- A registered source adapter (app/scrapers/base.py, `BaseScraper`): the
fixed default category plus the two capabilities.  `fetch_articles` is allowed
to raise (`Except.error`), modelling an adapter whose coroutine throws;
`fetch_article_content` is total into `Option` because every concrete scraper
catches all of its own failures and returns `None`. -/
structure Scraper where
  category : String
  fetch_articles : Nat → Except Unit (List Article)
  fetch_article_content : String → Option String

/-- The two module-level caches of app/services/news_service.py
(`news_cache`, line 18, and `article_cache`, line 22). -/
structure ServiceState where
  news_cache : List (String × NewsFeed)
  article_cache : List (String × Article)
deriving DecidableEq

/-- Assignment `cache[k] = v` on a TTL cache: the new binding shadows any older one. -/
def cachePut (k : String) (v : α) (m : List (String × α)) : List (String × α) :=
  (k, v) :: m

/-- news_service.py line 43: `cache_key = f"{category}_{page}_{limit}"`. -/
def cache_key (category : String) (page limit : Nat) : String :=
  category ++ "_" ++ toString page ++ "_" ++ toString limit

/-- The comparison used at news_service.py line 88:
`all_articles.sort(key=lambda x: x.published_at, reverse=True)`.
`sortRel a b` says `a` may precede `b` in the descending order. -/
def sortRel (a b : Article) : Prop :=
  b.published_at ≤ a.published_at

instance : DecidableRel sortRel := fun a b => Nat.decLe b.published_at a.published_at

instance : IsTotal Article sortRel :=
  ⟨fun a b => Nat.le_total b.published_at a.published_at⟩

instance : IsTrans Article sortRel :=
  ⟨fun _ _ _ h1 h2 => Nat.le_trans h2 h1⟩

/-- news_service.py line 88.  Python `list.sort` is stable, and with
`reverse=True` elements whose keys compare equal keep their original relative
order; `insertionSort` over the reflexive descending relation `sortRel` has
exactly that observable behaviour. -/
def sortByPublishedDesc (l : List Article) : List Article :=
  List.insertionSort sortRel l

/-- news_service.py lines 56-63: the fetch task list.  A scraper is skipped
iff the requested category is not the distinguished "realtime" category and
the scraper's own category differs. -/
def selectTasks (scrapers : List (String × Scraper)) (category : String) (limit : Nat) :
    List (Except Unit (List Article)) :=
  (scrapers.filter (fun p => category == "realtime" || p.2.category == category)).map
    (fun p => p.2.fetch_articles limit)

/-- news_service.py line 79: `await asyncio.gather(*fetch_tasks)` with the
default `return_exceptions=False` — the result is the list of all task results
when every task succeeds, and an exception as soon as any task raised. -/
def gatherFetch : List (Except Unit (List Article)) → Except Unit (List (List Article))
  | [] => Except.ok []
  | t :: ts =>
    match t with
    | Except.error e => Except.error e
    | Except.ok l =>
      match gatherFetch ts with
      | Except.error e => Except.error e
      | Except.ok ls => Except.ok (l :: ls)

/-- The empty `NewsFeed` built at news_service.py lines 68-75 and 116-123. -/
def emptyFeed (category : String) (page limit now : Nat) : NewsFeed :=
  { articles := [], category := category, page := page, limit := limit,
    total := 0, last_updated := now }

/-- The outcome of one `get_news_feed` call: the returned feed, the cache state
afterwards, and whether the adapter fan-out was awaited (line 79 reached) —
the observable distinguishing a cache hit from a fresh pass. -/
structure FeedResult where
  feed : NewsFeed
  state : ServiceState
  fanout : Bool
deriving DecidableEq

/-- news_service.py lines 30-123, `NewsService.get_news_feed`.  `now` stands
for `datetime.now()`.  The only failure point inside the `try` block is the
gathered fan-out itself (the fetch coroutines); the Python `except` at line 113
converts that failure into the empty feed, so the embedding is a total
function — the code never lets an exception escape this operation. -/
def get_news_feed (scrapers : List (String × Scraper)) (s : ServiceState)
    (category : String) (page limit : Nat) (force_refresh : Bool) (now : Nat) :
    FeedResult :=
  let key := cache_key category page limit
  match (if force_refresh then none else List.lookup key s.news_cache) with
  | some feed => { feed := feed, state := s, fanout := false }
  | none =>
    let fetch_tasks := selectTasks scrapers category limit
    if fetch_tasks.isEmpty then
      { feed := emptyFeed category page limit now, state := s, fanout := false }
    else
      match gatherFetch fetch_tasks with
      | Except.error _ =>
        { feed := emptyFeed category page limit now, state := s, fanout := true }
      | Except.ok article_lists =>
        let all_articles := article_lists.flatten
        let sorted := sortByPublishedDesc all_articles
        let paginated := (sorted.drop ((page - 1) * limit)).take limit
        let feed : NewsFeed :=
          { articles := paginated, category := category, page := page,
            limit := limit, total := all_articles.length, last_updated := now }
        { feed := feed,
          state :=
            { news_cache := cachePut key feed s.news_cache,
              article_cache :=
                paginated.foldl (fun m a => cachePut a.id a m) s.article_cache },
          fanout := true }

/-- Python `"-" in article_id` for the one-character separator
(news_service.py lines 145 and 183). -/
def hasDash (s : String) : Bool :=
  s.data.any (fun c => c == '-')

/-- news_service.py line 149: `article_id.split("-", 1)[0]` — everything
before the first `-` (the whole string when no `-` occurs). -/
def firstToken (s : String) : String :=
  String.mk (s.data.takeWhile (fun c => !(c == '-')))

/-- Python `str.startswith`. -/
def pyStartsWith (s pre : String) : Bool :=
  pre.data.isPrefixOf s.data

/-- The adapter-routing test of news_service.py lines 153 and 191:
`scraper_id == source_id or source_id.startswith(scraper_id)`. -/
def scraper_matches (scraper_id source_id : String) : Bool :=
  scraper_id == source_id || pyStartsWith source_id scraper_id

/-- The outcome of one `get_article` call: the article found (if any), the
cache state afterwards, and how many `fetch_articles` coroutines were
awaited. -/
structure ArticleResult where
  article : Option Article
  state : ServiceState
  fetch_calls : Nat
deriving DecidableEq

/-- news_service.py lines 152-163: scan the scraper registry in insertion
order; for each scraper passing the routing test, await `fetch_articles(50)`
(any exception it raises propagates — there is no `try` in `get_article`) and
return the first article whose id matches exactly, caching it. -/
def find_article_loop (article_id source_id : String) (s : ServiceState) (calls : Nat) :
    List (String × Scraper) → Except Unit ArticleResult
  | [] => Except.ok { article := none, state := s, fetch_calls := calls }
  | (scraper_id, scraper) :: rest =>
    if scraper_matches scraper_id source_id then
      match scraper.fetch_articles 50 with
      | Except.error e => Except.error e
      | Except.ok articles =>
        match articles.find? (fun a => a.id == article_id) with
        | some article =>
          Except.ok
            { article := some article,
              state :=
                { s with article_cache := cachePut article_id article s.article_cache },
              fetch_calls := calls + 1 }
        | none => find_article_loop article_id source_id s (calls + 1) rest
    else find_article_loop article_id source_id s calls rest

/-- news_service.py lines 126-163, `NewsService.get_article`. -/
def get_article (scrapers : List (String × Scraper)) (s : ServiceState)
    (article_id : String) (force_refresh : Bool) : Except Unit ArticleResult :=
  match (if force_refresh then none else List.lookup article_id s.article_cache) with
  | some article => Except.ok { article := some article, state := s, fetch_calls := 0 }
  | none =>
    if hasDash article_id = false then
      Except.ok { article := none, state := s, fetch_calls := 0 }
    else
      find_article_loop article_id (firstToken article_id) s 0 scrapers

/-- news_service.py lines 190-191: the first registered scraper passing the
routing test for the extracted source token. -/
def first_matching (scrapers : List (String × Scraper)) (source_id : String) :
    Option (String × Scraper) :=
  scrapers.find? (fun p => scraper_matches p.1 source_id)

/-- The outcome of one `get_article_content` call. -/
structure ContentResult where
  content : Option String
  state : ServiceState
  fetch_calls : Nat
deriving DecidableEq

/-- news_service.py lines 166-197, `NewsService.get_article_content`: resolve
the article via `get_article` (with `force_refresh` at its default `False`),
then route the content fetch to the first scraper matching the source token. -/
def get_article_content (scrapers : List (String × Scraper)) (s : ServiceState)
    (article_id : String) : Except Unit ContentResult :=
  match get_article scrapers s article_id false with
  | Except.error e => Except.error e
  | Except.ok r =>
    match r.article with
    | none => Except.ok { content := none, state := r.state, fetch_calls := r.fetch_calls }
    | some article =>
      if hasDash article_id = false then
        Except.ok { content := none, state := r.state, fetch_calls := r.fetch_calls }
      else
        match first_matching scrapers (firstToken article_id) with
        | some p =>
          Except.ok { content := p.2.fetch_article_content article.url,
                      state := r.state, fetch_calls := r.fetch_calls }
        | none => Except.ok { content := none, state := r.state, fetch_calls := r.fetch_calls }

/-! ### The scraper registry and per-scraper identifier generation -/

/-- app/config/settings.py lines 19-40: the `enabled` flag of each configured
source. -/
structure SourcesEnabled where
  hacker_news : Bool
  reddit : Bool
  github_trending : Bool

/-- In the shipped settings every source is enabled. -/
def settings_enabled : SourcesEnabled :=
  { hacker_news := true, reddit := true, github_trending := true }

/-- app/config/settings.py line 30: the configured subreddits. -/
def settings_subreddits : List String :=
  ["worldnews", "technology", "science", "politics", "business"]

/-- app/scrapers/reddit.py lines 44-53, `RedditScraper._get_category_for_subreddit`:
`category_map.get(subreddit, "realtime")`. -/
def category_for_subreddit (sub : String) : String :=
  if sub == "worldnews" then "world"
  else if sub == "technology" then "technology"
  else if sub == "science" then "science"
  else if sub == "politics" then "world"
  else if sub == "business" then "business"
  else "realtime"

/-- app/scrapers/__init__.py lines 11-36, `init_scrapers`, at the level of
(registered key, default category): Hacker News (category "technology",
hacker_news.py line 24), GitHub Trending (category "technology",
github_trending.py line 23), the base Reddit scraper (category "realtime",
reddit.py line 40) plus one `reddit_{subreddit}` scraper per configured
subreddit; if everything is disabled, Hacker News is force-enabled. -/
def init_scraper_entries (e : SourcesEnabled) : List (String × String) :=
  let built :=
    (if e.hacker_news then [("hacker_news", "technology")] else []) ++
    (if e.github_trending then [("github_trending", "technology")] else []) ++
    (if e.reddit then
        ("reddit", "realtime") ::
          settings_subreddits.map (fun sub => ("reddit_" ++ sub, category_for_subreddit sub))
      else [])
  if built.isEmpty then [("hacker_news", "technology")] else built

/-- The registry lookup performed by `get_article` / `get_article_content`
restricted to registered keys: the first registered key passing the routing
test for the extracted source token. -/
def locate_scraper_id (entries : List (String × String)) (source_id : String) :
    Option String :=
  (entries.find? (fun p => scraper_matches p.1 source_id)).map (fun p => p.1)

/-- app/scrapers/hacker_news.py line 101: `id=f"hn-{story['id']}"` — the
article identifier is the literal prefix "hn" plus the upstream story id
(`generate_article_id`, the URL hash, is not used). -/
def hn_article_id (storyId : Nat) : String :=
  "hn-" ++ toString storyId

/-- app/scrapers/reddit.py line 171: `id=f"reddit-{post_data['id']}"` — the
literal prefix "reddit" plus the upstream post id. -/
def reddit_article_id (postId : String) : String :=
  "reddit-" ++ postId

/-- app/scrapers/base.py lines 55-66, `BaseScraper.generate_article_id`:
`hashlib.md5(article_url.encode()).hexdigest()`.  The md5 digest is library
code outside this repository; it is carried as an abstract deterministic
function `md5hex`. -/
def generate_article_id (md5hex : String → String) (article_url : String) : String :=
  md5hex article_url

/-- app/scrapers/github_trending.py line 111:
`id=f"github-{self.generate_article_id(repo_url)}"`. -/
def github_article_id (md5hex : String → String) (repo_url : String) : String :=
  "github-" ++ generate_article_id md5hex repo_url

/-! ### Concrete test fixture: two mock adapters (tests/test_news_service.py) -/

/-- An article literal with the fields the pipeline reads. -/
def mkArticle (i u : String) (p : Nat) (cat : String) : Article :=
  { id := i, title := i, url := u, summary := none, content := none,
    published_at := p, category := cat }

def mock1Articles : List Article :=
  [ mkArticle "mock1-0" "https://example.com/mock1/article/0" 10 "technology",
    mkArticle "mock1-1" "https://example.com/mock1/article/1" 8 "technology",
    mkArticle "mock1-2" "https://example.com/mock1/article/2" 6 "technology",
    mkArticle "mock1-3" "https://example.com/mock1/article/3" 4 "technology",
    mkArticle "mock1-4" "https://example.com/mock1/article/4" 2 "technology" ]

def mock2Articles : List Article :=
  [ mkArticle "mock2-0" "https://example.com/mock2/article/0" 9 "world",
    mkArticle "mock2-1" "https://example.com/mock2/article/1" 7 "world",
    mkArticle "mock2-2" "https://example.com/mock2/article/2" 5 "world",
    mkArticle "mock2-3" "https://example.com/mock2/article/3" 3 "world",
    mkArticle "mock2-4" "https://example.com/mock2/article/4" 1 "world" ]

/-- A mock adapter in the style of tests/test_news_service.py `MockScraper`:
returns a fixed list of five articles and canned content. -/
def mock1 : Scraper :=
  { category := "technology",
    fetch_articles := fun _ => Except.ok mock1Articles,
    fetch_article_content := fun u => some ("Mock content for " ++ u) }

def mock2 : Scraper :=
  { category := "world",
    fetch_articles := fun _ => Except.ok mock2Articles,
    fetch_article_content := fun u => some ("Mock content for " ++ u) }

/-- A registry of exactly two enabled adapters, each returning 5 articles. -/
def twoScrapers : List (String × Scraper) :=
  [("mock1", mock1), ("mock2", mock2)]

/-- An adapter whose `fetch_articles` coroutine raises. -/
def failingScraper : Scraper :=
  { category := "world",
    fetch_articles := fun _ => Except.error (),
    fetch_article_content := fun _ => none }

/-- One healthy adapter and one raising adapter. -/
def mixedScrapers : List (String × Scraper) :=
  [("mock1", mock1), ("bad", failingScraper)]

def emptyState : ServiceState :=
  { news_cache := [], article_cache := [] }

/-- Placeholder used only to state index-wise sortedness via `List.getD`; its
timestamp 0 is minimal, so out-of-range reads never violate descending order. -/
def defaultArticle : Article :=
  { id := "", title := "", url := "", summary := none, content := none,
    published_at := 0, category := "" }

/-- A state in which the feed cache already holds a live entry for the key
("realtime", page 1, limit 5). -/
def cachedState : ServiceState :=
  { news_cache := [(cache_key "realtime" 1 5, emptyFeed "realtime" 1 5 0)],
    article_cache := [] }

/-! ### Helper lemmas -/

lemma gatherFetch_error_of_mem {tasks : List (Except Unit (List Article))}
    (h : Except.error () ∈ tasks) : gatherFetch tasks = Except.error () := by
  induction tasks with
  | nil => cases h
  | cons t ts ih =>
    rcases List.mem_cons.mp h with h1 | h2
    · rw [← h1]; rfl
    · cases t with
      | error e => cases e; rfl
      | ok l => simp [gatherFetch, ih h2]

lemma takeWhile_append_stop {l1 l2 : List Char}
    (h1 : ∀ c ∈ l1, (!(c == '-')) = true) :
    (l1 ++ '-' :: l2).takeWhile (fun c => !(c == '-')) = l1 := by
  induction l1 with
  | nil => simp
  | cons a l ih =>
    have ha := h1 a (List.mem_cons_self a l)
    simp only [List.cons_append, List.takeWhile_cons, ha, if_true]
    rw [ih (fun c hc => h1 c (List.mem_cons_of_mem a hc))]

lemma firstToken_before_dash (pre rest : String) (h : ∀ c ∈ pre.data, (!(c == '-')) = true) :
    firstToken (pre ++ "-" ++ rest) = pre := by
  unfold firstToken
  have hd : (pre ++ "-" ++ rest).data = pre.data ++ ('-' :: rest.data) := by
    rw [String.data_append, String.data_append, List.append_assoc]
    rfl
  rw [hd, takeWhile_append_stop h]

lemma find_article_loop_none {scrapers : List (String × Scraper)}
    {article_id source_id : String} {s : ServiceState} {calls : Nat}
    (h : ∀ p ∈ scrapers, scraper_matches p.1 source_id = false) :
    find_article_loop article_id source_id s calls scrapers =
      Except.ok { article := none, state := s, fetch_calls := calls } := by
  induction scrapers with
  | nil => rfl
  | cons p rest ih =>
    obtain ⟨pid, psc⟩ := p
    have hp := h (pid, psc) (List.mem_cons_self _ _)
    simp only [find_article_loop, hp]
    exact ih (fun q hq => h q (List.mem_cons_of_mem _ hq))

lemma find_article_loop_found {scrapers : List (String × Scraper)}
    {article_id source_id sid : String} {sc : Scraper} {arts : List Article}
    {a : Article} (s : ServiceState)
    (hfm : first_matching scrapers source_id = some (sid, sc))
    (hfetch : sc.fetch_articles 50 = Except.ok arts)
    (hfind : arts.find? (fun x => x.id == article_id) = some a) :
    find_article_loop article_id source_id s 0 scrapers =
      Except.ok { article := some a,
                  state := { s with
                    article_cache := cachePut article_id a s.article_cache },
                  fetch_calls := 1 } := by
  induction scrapers with
  | nil => simp [first_matching] at hfm
  | cons p rest ih =>
    obtain ⟨pid, psc⟩ := p
    by_cases hm : scraper_matches pid source_id = true
    · have hps : pid = sid ∧ psc = sc := by
        have := hfm
        simp only [first_matching, List.find?, hm] at this
        exact ⟨congrArg Prod.fst (Option.some.inj this),
               congrArg Prod.snd (Option.some.inj this)⟩
      obtain ⟨h1, h2⟩ := hps
      subst h1; subst h2
      simp only [find_article_loop, hm, if_true, hfetch, hfind]
    · have hrest : first_matching rest source_id = some (sid, sc) := by
        have := hfm
        simp only [first_matching, List.find?] at this ⊢
        rw [Bool.not_eq_true] at hm
        rw [hm] at this
        exact this
      have hmf : scraper_matches pid source_id = false := Bool.not_eq_true _ |>.mp hm
      simp only [find_article_loop, hmf]
      exact ih hrest

lemma get_news_feed_cache_hit {s : ServiceState} {category : String}
    {page limit now : Nat} {f : NewsFeed} (scrapers : List (String × Scraper))
    (h : List.lookup (cache_key category page limit) s.news_cache = some f) :
    get_news_feed scrapers s category page limit false now =
      { feed := f, state := s, fanout := false } := by
  simp [get_news_feed, h]

lemma filter_orderedInsert (t : Nat) (x : Article) (l : List Article) :
    (List.orderedInsert sortRel x l).filter (fun a => a.published_at == t) =
      (x :: l).filter (fun a => a.published_at == t) := by
  induction l with
  | nil => rfl
  | cons b l ih =>
    by_cases hr : sortRel x b
    · rw [List.orderedInsert, if_pos hr]
    · rw [List.orderedInsert, if_neg hr]
      have hlt : x.published_at < b.published_at := Nat.lt_of_not_le hr
      simp only [List.filter_cons, ih]
      by_cases hb : b.published_at = t <;> by_cases hx : x.published_at = t
      · exfalso; omega
      · simp [hb, hx]
      · simp [hb, hx]
      · simp [hb, hx]

lemma filter_insertionSort (t : Nat) (l : List Article) :
    (List.insertionSort sortRel l).filter (fun a => a.published_at == t) =
      l.filter (fun a => a.published_at == t) := by
  induction l with
  | nil => rfl
  | cons a l ih =>
    rw [List.insertionSort, filter_orderedInsert]
    simp only [List.filter_cons, ih]

lemma pairwise_getD_le {l : List Article} (h : List.Pairwise sortRel l) (i : Nat) :
    (l.getD (i + 1) defaultArticle).published_at ≤
      (l.getD i defaultArticle).published_at := by
  by_cases hlt : i + 1 < l.length
  · have hi : i < l.length := Nat.lt_of_succ_lt hlt
    rw [List.getD_eq_getElem?_getD, List.getD_eq_getElem?_getD,
        List.getElem?_eq_getElem hlt, List.getElem?_eq_getElem hi]
    simp only [Option.getD_some]
    exact List.pairwise_iff_getElem.mp h i (i + 1) hi hlt (Nat.lt_succ_self i)
  · rw [List.getD_eq_getElem?_getD l (i + 1) defaultArticle,
        List.getElem?_eq_none (by omega)]
    exact Nat.zero_le _

lemma pairwise_slice (l : List Article) (n m : Nat)
    (h : List.Pairwise sortRel l) :
    List.Pairwise sortRel ((l.drop n).take m) :=
  List.Pairwise.sublist ((List.take_sublist m _).trans (List.drop_sublist n l)) h

/-! ### Claim theorems -/

/-- C1, counterexample: with exactly two enabled adapters (categories
"technology" and "world") each returning 5 articles, a call with the literal
category "all" resolves an empty adapter set and returns an empty feed with
`total = 0`, not the 5 most recent of the combined 10 with `total = 10`. -/
theorem claim1_counterexample :
    selectTasks twoScrapers "all" 5 = [] ∧
    (get_news_feed twoScrapers emptyState "all" 1 5 false 0).feed.total = 0 ∧
    (get_news_feed twoScrapers emptyState "all" 1 5 false 0).feed.articles = [] :=
  ⟨rfl, rfl, rfl⟩

/-- C1 (amended): the distinguished category that resolves every enabled
adapter regardless of its individual category is spelled "realtime", not
"all" (news_service.py line 58).  For it, the fan-out task set is every
registered adapter's fetch, and with exactly two enabled adapters each
returning 5 articles, `get_news_feed("realtime", page=1, limit=5)` returns
exactly the 5 most recent of the combined 10 articles and `total = 10`. -/
theorem claim1_amended :
    (∀ (scrapers : List (String × Scraper)) (limit : Nat),
        selectTasks scrapers "realtime" limit =
          scrapers.map (fun p => p.2.fetch_articles limit)) ∧
    (get_news_feed twoScrapers emptyState "realtime" 1 5 false 0).feed.total = 10 ∧
    (get_news_feed twoScrapers emptyState "realtime" 1 5 false 0).feed.articles =
      [ mkArticle "mock1-0" "https://example.com/mock1/article/0" 10 "technology",
        mkArticle "mock2-0" "https://example.com/mock2/article/0" 9 "world",
        mkArticle "mock1-1" "https://example.com/mock1/article/1" 8 "technology",
        mkArticle "mock2-1" "https://example.com/mock2/article/1" 7 "world",
        mkArticle "mock1-2" "https://example.com/mock1/article/2" 6 "technology" ] := by
  refine ⟨fun scrapers limit => ?_, by decide, by decide⟩
  unfold selectTasks
  rw [List.filter_eq_self.mpr]
  intro p _
  simp

/-- C2, counterexample: the Hacker News adapter builds the identifier
`"hn-" ++ story id` (hacker_news.py line 101).  Its prefix token "hn" is not
the source prefix "hacker_news" (the identifier does not start with
"hacker_news-"), and the routing test of news_service.py line 153 locates no
registered adapter for it, so the owning adapter cannot be found by prefix
match; the source-local component is the upstream story id, not a hash of the
URL. -/
theorem claim2_counterexample :
    hn_article_id 123 = "hn-123" ∧
    pyStartsWith (hn_article_id 123) "hacker_news-" = false ∧
    firstToken (hn_article_id 123) = "hn" ∧
    locate_scraper_id (init_scraper_entries settings_enabled)
      (firstToken (hn_article_id 123)) = none :=
  ⟨rfl, rfl, rfl, rfl⟩

/-- C2 (amended): each adapter's identifiers have the form
`{literal prefix}-{source-local id}`, but the prefix is an adapter-chosen
literal ("hn", "reddit", "github") that need not equal the registered source
id, and only the GitHub Trending adapter derives the local component by
hashing the canonical URL (Hacker News uses the upstream story id and Reddit
the upstream post id).  Consequently prefix-match routing over the shipped
registry locates an owning adapter only for "reddit-…" identifiers; "hn-…"
and "github-…" identifiers match no registered adapter. -/
theorem claim2_amended :
    (∀ storyId : Nat, hn_article_id storyId = "hn-" ++ toString storyId) ∧
    (∀ postId : String, reddit_article_id postId = "reddit-" ++ postId) ∧
    (∀ (md5hex : String → String) (url : String),
        github_article_id md5hex url = "github-" ++ md5hex url) ∧
    (∀ storyId : Nat,
        locate_scraper_id (init_scraper_entries settings_enabled)
          (firstToken (hn_article_id storyId)) = none) ∧
    (∀ (md5hex : String → String) (url : String),
        locate_scraper_id (init_scraper_entries settings_enabled)
          (firstToken (github_article_id md5hex url)) = none) ∧
    (∀ postId : String,
        locate_scraper_id (init_scraper_entries settings_enabled)
          (firstToken (reddit_article_id postId)) = some "reddit") := by
  have hhn : ∀ storyId : Nat, firstToken (hn_article_id storyId) = "hn" := by
    intro storyId
    exact firstToken_before_dash "hn" (toString storyId) (by decide)
  have hgh : ∀ (md5hex : String → String) (url : String),
      firstToken (github_article_id md5hex url) = "github" := by
    intro md5hex url
    exact firstToken_before_dash "github" (md5hex url) (by decide)
  have hrd : ∀ postId : String, firstToken (reddit_article_id postId) = "reddit" := by
    intro postId
    exact firstToken_before_dash "reddit" postId (by decide)
  refine ⟨fun _ => rfl, fun _ => rfl, fun _ _ => rfl, ?_, ?_, ?_⟩
  · intro storyId; rw [hhn storyId]; rfl
  · intro md5hex url; rw [hgh md5hex url]; rfl
  · intro postId; rw [hrd postId]; rfl

/-- C4, counterexample: with two matching adapters of which exactly one
raises, the returned feed does not contain the healthy adapter's 5 articles —
`asyncio.gather` (line 79, default `return_exceptions=False`) re-raises the
adapter's exception, the `except` at line 113 catches it, and the whole call
degrades to the empty feed. -/
theorem claim4_counterexample :
    mock1.fetch_articles 20 = Except.ok mock1Articles ∧
    mock1Articles.length = 5 ∧
    failingScraper.fetch_articles 20 = Except.error () ∧
    (get_news_feed mixedScrapers emptyState "realtime" 1 20 false 0).feed.articles = [] ∧
    (get_news_feed mixedScrapers emptyState "realtime" 1 20 false 0).feed.total = 0 :=
  ⟨rfl, rfl, rfl, rfl, rfl⟩

/-- C4 (amended): if any matching adapter's `fetch_articles` raises during the
fan-out of a non-cached `get_news_feed` pass, the call still does not raise,
but the returned Feed is the empty feed for the requested category/page/limit
— the articles of the other N−1 adapters are discarded along with the failing
adapter's, and the caches are left untouched. -/
theorem claim4_amended (scrapers : List (String × Scraper)) (s : ServiceState)
    (category : String) (page limit now : Nat) (force_refresh : Bool)
    (hmiss : (if force_refresh then none
              else List.lookup (cache_key category page limit) s.news_cache) = none)
    (herr : Except.error () ∈ selectTasks scrapers category limit) :
    get_news_feed scrapers s category page limit force_refresh now =
      { feed := emptyFeed category page limit now, state := s, fanout := true } := by
  have hg := gatherFetch_error_of_mem herr
  have hne : (selectTasks scrapers category limit).isEmpty = false := by
    cases hsel : selectTasks scrapers category limit with
    | nil => rw [hsel] at herr; cases herr
    | cons a l => rfl
  simp only [get_news_feed]
  rw [hmiss, hne, hg]
  rfl

/-- Witness for C4 (amended) at the two-adapter fixture with one raising
adapter. -/
theorem claim4_amended_witness :
    get_news_feed mixedScrapers emptyState "realtime" 1 20 false 0 =
      { feed := emptyFeed "realtime" 1 20 0, state := emptyState, fanout := true } :=
  claim4_amended mixedScrapers emptyState "realtime" 1 20 0 false rfl
    (List.Mem.tail _ (List.Mem.head _))

/-- C3: content routing.  (i) When the source token of `article_id` (the part
before the first "-") passes the routing test of no registered adapter,
`get_article_content` returns the absent value, with caches untouched and no
fetch performed.  (ii) When the token routes (exact match or the registered id
a leading prefix of the token) to a first matching adapter whose fetched
articles contain an exact-id match, `get_article_content` returns that
adapter's fetched content body for the article's URL. -/
theorem claim3_content_routing :
    (∀ (scrapers : List (String × Scraper)) (s : ServiceState) (article_id : String),
        first_matching scrapers (firstToken article_id) = none →
        get_article_content scrapers s article_id =
          Except.ok { content := none, state := s, fetch_calls := 0 }) ∧
    (∀ (scrapers : List (String × Scraper)) (s : ServiceState) (article_id : String)
        (sid : String) (sc : Scraper) (arts : List Article) (a : Article),
        List.lookup article_id s.article_cache = none →
        hasDash article_id = true →
        first_matching scrapers (firstToken article_id) = some (sid, sc) →
        sc.fetch_articles 50 = Except.ok arts →
        arts.find? (fun x => x.id == article_id) = some a →
        get_article_content scrapers s article_id =
          Except.ok { content := sc.fetch_article_content a.url,
                      state := { s with
                        article_cache := cachePut article_id a s.article_cache },
                      fetch_calls := 1 }) := by
  constructor
  · intro scrapers s article_id hnone
    have hall : ∀ p ∈ scrapers, scraper_matches p.1 (firstToken article_id) = false := by
      intro p hp
      have := List.find?_eq_none.mp hnone p hp
      exact Bool.not_eq_true _ |>.mp this
    cases hc : List.lookup article_id s.article_cache with
    | some a =>
      cases hd : hasDash article_id with
      | false => simp [get_article_content, get_article, hc, hd]
      | true => simp [get_article_content, get_article, hc, hd, hnone]
    | none =>
      cases hd : hasDash article_id with
      | false => simp [get_article_content, get_article, hc, hd]
      | true =>
        have hloop :
            find_article_loop article_id (firstToken article_id) s 0 scrapers =
              Except.ok { article := none, state := s, fetch_calls := 0 } :=
          find_article_loop_none hall
        simp [get_article_content, get_article, hc, hd, hloop]
  · intro scrapers s article_id sid sc arts a hmiss hdash hfm hfetch hfind
    have hloop := find_article_loop_found s hfm hfetch hfind
    simp [get_article_content, get_article, hmiss, hdash, hloop, hfm]

/-- Witness for C3: "unknown-xyz" routes nowhere and yields the absent value;
"mock1-0" routes to the registered mock adapter and yields its fetched body. -/
theorem claim3_witness :
    get_article_content twoScrapers emptyState "unknown-xyz" =
      Except.ok { content := none, state := emptyState, fetch_calls := 0 } ∧
    get_article_content twoScrapers emptyState "mock1-0" =
      Except.ok { content := some "Mock content for https://example.com/mock1/article/0",
                  state := { emptyState with
                    article_cache :=
                      cachePut "mock1-0"
                        (mkArticle "mock1-0" "https://example.com/mock1/article/0" 10 "technology")
                        emptyState.article_cache },
                  fetch_calls := 1 } :=
  ⟨claim3_content_routing.1 twoScrapers emptyState "unknown-xyz" rfl,
   claim3_content_routing.2 twoScrapers emptyState "mock1-0" "mock1" mock1
     mock1Articles
     (mkArticle "mock1-0" "https://example.com/mock1/article/0" 10 "technology")
     rfl rfl rfl rfl rfl⟩

/-- C8: whatever the adapters do, if the gathered fan-out raises (the only
failure point of the guarded fan-out/merge region in the embedding), the call
returns the empty Feed for the requested category/page/limit instead of
propagating; that the embedding is a total function into `FeedResult` is the
image of "never propagates an exception to the caller". -/
theorem claim8_error_containment (scrapers : List (String × Scraper))
    (s : ServiceState) (category : String) (page limit now : Nat)
    (force_refresh : Bool)
    (hmiss : (if force_refresh then none
              else List.lookup (cache_key category page limit) s.news_cache) = none)
    (herr : gatherFetch (selectTasks scrapers category limit) = Except.error ()) :
    get_news_feed scrapers s category page limit force_refresh now =
      { feed := emptyFeed category page limit now, state := s, fanout := true } := by
  have hne : (selectTasks scrapers category limit).isEmpty = false := by
    cases hsel : selectTasks scrapers category limit with
    | nil => rw [hsel] at herr; simp [gatherFetch] at herr
    | cons a l => rfl
  simp only [get_news_feed]
  rw [hmiss, hne, herr]
  rfl

/-- Witness for C8 at the fixture with one raising adapter. -/
theorem claim8_witness :
    get_news_feed mixedScrapers emptyState "world" 2 7 true 3 =
      { feed := emptyFeed "world" 2 7 3, state := emptyState, fanout := true } :=
  claim8_error_containment mixedScrapers emptyState "world" 2 7 3 true rfl rfl

/-- C9: on either degraded path of `get_news_feed` — empty matched adapter
set, or an exception during the gathered fan-out — the returned empty feed is
written to neither cache: the state after the call is exactly the state
before, so a later call with the same key behaves exactly as if the degraded
call had never happened (it re-attempts the fan-out instead of being served
the degraded result). -/
theorem claim9_degraded_no_write (scrapers : List (String × Scraper))
    (s : ServiceState) (category : String) (page limit now : Nat)
    (force_refresh : Bool)
    (hmiss : (if force_refresh then none
              else List.lookup (cache_key category page limit) s.news_cache) = none)
    (hdeg : selectTasks scrapers category limit = [] ∨
            gatherFetch (selectTasks scrapers category limit) = Except.error ()) :
    (get_news_feed scrapers s category page limit force_refresh now).state = s ∧
    (get_news_feed scrapers s category page limit force_refresh now).feed.articles = [] ∧
    (get_news_feed scrapers s category page limit force_refresh now).feed.total = 0 ∧
    (∀ (force2 : Bool) (now2 : Nat),
        get_news_feed scrapers
            (get_news_feed scrapers s category page limit force_refresh now).state
            category page limit force2 now2 =
          get_news_feed scrapers s category page limit force2 now2) := by
  have hkey : (get_news_feed scrapers s category page limit force_refresh now).state = s ∧
      (get_news_feed scrapers s category page limit force_refresh now).feed =
        emptyFeed category page limit now := by
    rcases hdeg with hnil | herr
    · simp only [get_news_feed]
      rw [hmiss, hnil]
      exact ⟨rfl, rfl⟩
    · have hne : (selectTasks scrapers category limit).isEmpty = false := by
        cases hsel : selectTasks scrapers category limit with
        | nil => rw [hsel] at herr; simp [gatherFetch] at herr
        | cons a l => rfl
      simp only [get_news_feed]
      rw [hmiss, hne, herr]
      exact ⟨rfl, rfl⟩
  refine ⟨hkey.1, ?_, ?_, ?_⟩
  · rw [hkey.2]; rfl
  · rw [hkey.2]; rfl
  · intro force2 now2; rw [hkey.1]

/-- Witness for C9: a category matching no adapter leaves both caches
untouched. -/
theorem claim9_witness :
    (get_news_feed twoScrapers emptyState "sports" 1 5 false 0).state = emptyState ∧
    (get_news_feed twoScrapers emptyState "sports" 1 5 false 0).feed.articles = [] ∧
    (get_news_feed twoScrapers emptyState "sports" 1 5 false 0).feed.total = 0 ∧
    get_news_feed twoScrapers (get_news_feed twoScrapers emptyState "sports" 1 5 false 0).state
        "sports" 1 5 true 7 =
      get_news_feed twoScrapers emptyState "sports" 1 5 true 7 := by
  have h := claim9_degraded_no_write twoScrapers emptyState "sports" 1 5 0 false rfl (Or.inl rfl)
  exact ⟨h.1, h.2.1, h.2.2.1, h.2.2.2 true 7⟩

/-- C10: an article id without the "-" separator short-circuits: after an
article-cache miss, `get_article` returns the absent value without awaiting
any adapter's `fetch_articles`, `get_article_content` on the same id is also
absent, and neither call changes either cache. -/
theorem claim10_no_separator (scrapers : List (String × Scraper))
    (s : ServiceState) (article_id : String)
    (hnodash : hasDash article_id = false)
    (hmiss : List.lookup article_id s.article_cache = none) :
    get_article scrapers s article_id false =
      Except.ok { article := none, state := s, fetch_calls := 0 } ∧
    get_article_content scrapers s article_id =
      Except.ok { content := none, state := s, fetch_calls := 0 } := by
  have hga : get_article scrapers s article_id false =
      Except.ok { article := none, state := s, fetch_calls := 0 } := by
    simp [get_article, hmiss, hnodash]
  exact ⟨hga, by simp [get_article_content, hga]⟩

/-- Witness for C10 at the id "nodash". -/
theorem claim10_witness :
    get_article twoScrapers emptyState "nodash" false =
      Except.ok { article := none, state := emptyState, fetch_calls := 0 } ∧
    get_article_content twoScrapers emptyState "nodash" =
      Except.ok { content := none, state := emptyState, fetch_calls := 0 } :=
  claim10_no_separator twoScrapers emptyState "nodash" rfl rfl

/-- C5: on a fresh (non-cached) pass whose fan-out succeeds with the adapter
result lists `lists`, the returned feed's articles are exactly the requested
page window of the concatenation of all adapters' results stably sorted by
publication timestamp descending; consecutive returned articles satisfy
`articles[i+1].published_at <= articles[i].published_at` (out-of-range reads
default to the minimal timestamp); and the sort keeps articles with equal
timestamps in concatenation/adapter order (the elements at any fixed timestamp
appear in the same order before and after sorting). -/
theorem claim5_sorted_stable (scrapers : List (String × Scraper))
    (s : ServiceState) (category : String) (page limit now : Nat)
    (force_refresh : Bool)
    (hmiss : (if force_refresh then none
              else List.lookup (cache_key category page limit) s.news_cache) = none)
    (lists : List (List Article))
    (hok : gatherFetch (selectTasks scrapers category limit) = Except.ok lists) :
    (get_news_feed scrapers s category page limit force_refresh now).feed.articles =
      ((sortByPublishedDesc lists.flatten).drop ((page - 1) * limit)).take limit ∧
    (∀ i : Nat,
        ((get_news_feed scrapers s category page limit force_refresh now).feed.articles.getD
            (i + 1) defaultArticle).published_at ≤
          ((get_news_feed scrapers s category page limit force_refresh now).feed.articles.getD
            i defaultArticle).published_at) ∧
    (∀ t : Nat,
        (sortByPublishedDesc lists.flatten).filter (fun a => a.published_at == t) =
          lists.flatten.filter (fun a => a.published_at == t)) := by
  have harts : (get_news_feed scrapers s category page limit force_refresh now).feed.articles =
      ((sortByPublishedDesc lists.flatten).drop ((page - 1) * limit)).take limit := by
    cases hsel : selectTasks scrapers category limit with
    | nil =>
      rw [hsel] at hok
      have hl : lists = [] := by
        simpa [gatherFetch] using hok
      subst hl
      simp only [get_news_feed]
      rw [hmiss, hsel]
      simp [sortByPublishedDesc, List.insertionSort, emptyFeed]
    | cons tsk rest =>
      rw [hsel] at hok
      simp only [get_news_feed]
      rw [hmiss, hsel, hok]
      rfl
  refine ⟨harts, ?_, fun t => filter_insertionSort t lists.flatten⟩
  intro i
  rw [harts]
  exact pairwise_getD_le
    (pairwise_slice _ _ _ (List.sorted_insertionSort sortRel lists.flatten)) i

/-- Witness for C5 at the two-adapter fixture (page 1, limit 5), checking the
page-window equation, descending order at index 0, and tie-stability at
timestamp 9. -/
theorem claim5_witness :
    (get_news_feed twoScrapers emptyState "realtime" 1 5 false 0).feed.articles =
      ((sortByPublishedDesc ([mock1Articles, mock2Articles] : List (List Article)).flatten).drop
          ((1 - 1) * 5)).take 5 ∧
    ((get_news_feed twoScrapers emptyState "realtime" 1 5 false 0).feed.articles.getD
        1 defaultArticle).published_at ≤
      ((get_news_feed twoScrapers emptyState "realtime" 1 5 false 0).feed.articles.getD
        0 defaultArticle).published_at ∧
    (sortByPublishedDesc ([mock1Articles, mock2Articles] : List (List Article)).flatten).filter
        (fun a => a.published_at == 9) =
      ([mock1Articles, mock2Articles] : List (List Article)).flatten.filter
        (fun a => a.published_at == 9) :=
  ⟨(claim5_sorted_stable twoScrapers emptyState "realtime" 1 5 0 false rfl
      [mock1Articles, mock2Articles] rfl).1,
   (claim5_sorted_stable twoScrapers emptyState "realtime" 1 5 0 false rfl
      [mock1Articles, mock2Articles] rfl).2.1 0,
   (claim5_sorted_stable twoScrapers emptyState "realtime" 1 5 0 false rfl
      [mock1Articles, mock2Articles] rfl).2.2 9⟩

/-- C6: (i) immediately after a successful fresh pass, the feed cache holds
the returned feed under the call's key; (ii) whenever a live entry produced by
a first call is present at a second call with the same (category, page,
limit) and `force_refresh = false`, the second call returns the identical
feed, leaves the state untouched, and performs no adapter fan-out. -/
theorem claim6_cached_idempotent (scrapers : List (String × Scraper))
    (s : ServiceState) (category : String) (page limit now1 now2 : Nat) :
    (∀ lists : List (List Article),
        List.lookup (cache_key category page limit) s.news_cache = none →
        (selectTasks scrapers category limit).isEmpty = false →
        gatherFetch (selectTasks scrapers category limit) = Except.ok lists →
        List.lookup (cache_key category page limit)
            (get_news_feed scrapers s category page limit false now1).state.news_cache =
          some (get_news_feed scrapers s category page limit false now1).feed) ∧
    (List.lookup (cache_key category page limit)
          (get_news_feed scrapers s category page limit false now1).state.news_cache =
        some (get_news_feed scrapers s category page limit false now1).feed →
      get_news_feed scrapers
          (get_news_feed scrapers s category page limit false now1).state
          category page limit false now2 =
        { feed := (get_news_feed scrapers s category page limit false now1).feed,
          state := (get_news_feed scrapers s category page limit false now1).state,
          fanout := false }) := by
  constructor
  · intro lists hmiss hne hok
    simp [get_news_feed, hmiss, hne, hok, cachePut, List.lookup]
  · intro hlive
    exact get_news_feed_cache_hit scrapers hlive

/-- Witness for C6: at the two-adapter fixture the first call writes its feed
under the key, and a second call with the same (category, page, limit) and
`force_refresh = false` returns the identical feed from cache with no
fan-out, leaving the state untouched. -/
theorem claim6_witness :
    List.lookup (cache_key "realtime" 1 5)
        (get_news_feed twoScrapers emptyState "realtime" 1 5 false 0).state.news_cache =
      some (get_news_feed twoScrapers emptyState "realtime" 1 5 false 0).feed ∧
    get_news_feed twoScrapers
        (get_news_feed twoScrapers emptyState "realtime" 1 5 false 0).state
        "realtime" 1 5 false 99 =
      { feed := (get_news_feed twoScrapers emptyState "realtime" 1 5 false 0).feed,
        state := (get_news_feed twoScrapers emptyState "realtime" 1 5 false 0).state,
        fanout := false } := by
  have h := claim6_cached_idempotent twoScrapers emptyState "realtime" 1 5 0 99
  have h1 := h.1 [mock1Articles, mock2Articles] rfl rfl rfl
  exact ⟨h1, h.2 h1⟩

/-- C7: with `force_refresh = true`, even though a live cache entry exists for
the key, the cache read is bypassed and the adapter fan-out happens; after a
successful pass the feed cache entry for the key is overwritten with the
freshly built feed (write-through). -/
theorem claim7_force_refresh_writes (scrapers : List (String × Scraper))
    (s : ServiceState) (category : String) (page limit now : Nat)
    (feed0 : NewsFeed) (lists : List (List Article))
    (_hcached : List.lookup (cache_key category page limit) s.news_cache = some feed0)
    (hne : (selectTasks scrapers category limit).isEmpty = false)
    (hok : gatherFetch (selectTasks scrapers category limit) = Except.ok lists) :
    (get_news_feed scrapers s category page limit true now).fanout = true ∧
    (get_news_feed scrapers s category page limit true now).feed =
      { articles :=
          ((sortByPublishedDesc lists.flatten).drop ((page - 1) * limit)).take limit,
        category := category, page := page, limit := limit,
        total := lists.flatten.length, last_updated := now } ∧
    List.lookup (cache_key category page limit)
        (get_news_feed scrapers s category page limit true now).state.news_cache =
      some (get_news_feed scrapers s category page limit true now).feed := by
  refine ⟨?_, ?_, ?_⟩ <;> simp [get_news_feed, hne, hok, cachePut, List.lookup]

/-- Witness for C7: a live entry for the key exists in `cachedState`, yet the
forced call fans out and overwrites the entry with the fresh feed. -/
theorem claim7_witness :
    (get_news_feed twoScrapers cachedState "realtime" 1 5 true 0).fanout = true ∧
    (get_news_feed twoScrapers cachedState "realtime" 1 5 true 0).feed =
      { articles :=
          ((sortByPublishedDesc
              ([mock1Articles, mock2Articles] : List (List Article)).flatten).drop
            ((1 - 1) * 5)).take 5,
        category := "realtime", page := 1, limit := 5,
        total := ([mock1Articles, mock2Articles] : List (List Article)).flatten.length,
        last_updated := 0 } ∧
    List.lookup (cache_key "realtime" 1 5)
        (get_news_feed twoScrapers cachedState "realtime" 1 5 true 0).state.news_cache =
      some (get_news_feed twoScrapers cachedState "realtime" 1 5 true 0).feed :=
  claim7_force_refresh_writes twoScrapers cachedState "realtime" 1 5 0
    (emptyFeed "realtime" 1 5 0) [mock1Articles, mock2Articles] rfl rfl rfl

end NewsStation
